import Mathlib

/-
Verification development for the HEST ACPI table drivers of ArmPlatformPkg:
 - HestDxe.c              (table aggregator: AppendErrorSourceDescriptor,
                           BuildHestHeader, InstallHestAcpiTable)
 - HestErrorSourceStandaloneMm.c  (cross-domain collector:
                           HestErrorSourcesInfoMmiHandler)
 - HestErrorSourceDxe.c   (boundary client: AppendMmErrorSources)

Machine integers are modelled as Nat.  UINT32 stores truncate with % 2^32
and UINT8 stores with % 256, mirroring the narrowing that happens in the C
code (UINTN inputs are stored into the UINT32 header fields).  UINTN (64-bit)
intermediate sums are modelled as unbounded Nat: no computation in these
drivers can approach 2^64 without the corresponding buffers already being
unrepresentable.
-/

/-- Status codes used by the three drivers (subset of EFI_STATUS). -/
inductive EfiStatus where
  | success
  | invalidParameter
  | outOfResources
  | bufferTooSmall
  | badBufferSize
  | notFound
  | aborted
deriving DecidableEq, Repr

/-- EFI_ERROR(x): every modelled status except EFI_SUCCESS is an error code. -/
def EfiStatus.isError : EfiStatus → Bool
  | .success => false
  | _ => true

/-- Platform configuration values read from fixed PCDs by BuildHestHeader
(PcdAcpiDefaultOemId and friends).  They are opaque platform constants; the
model carries them as parameters. -/
structure Pcds where
  oemId : List Nat
  oemTableId : Nat
  oemRevision : Nat
  creatorId : Nat
  creatorRevision : Nat
deriving DecidableEq, Repr

/-- BuildHestHeader populates a stack-allocated
EFI_ACPI_6_3_HARDWARE_ERROR_SOURCE_TABLE_HEADER but never assigns its
Header.Length and Header.Checksum fields before CopyMem copies the whole
struct into the table buffer.  Those two fields therefore hold indeterminate
stack bytes, modelled explicitly by this structure. -/
structure HeaderGarbage where
  length : Nat
  checksum : Nat
deriving DecidableEq, Repr

/-- The EFI_ACPI_6_3_HARDWARE_ERROR_SOURCE_TABLE_HEADER struct (packed ACPI
layout): EFI_ACPI_DESCRIPTION_HEADER followed by the UINT32 ErrorSourceCount.
Fields are flattened here; sizes: signature 4, length 4, revision 1,
checksum 1, oemId 6, oemTableId 8, oemRevision 4, creatorId 4,
creatorRevision 4, errorSourceCount 4 = 40 bytes. -/
structure HestTableHeader where
  signature : Nat
  length : Nat
  revision : Nat
  checksum : Nat
  oemId : List Nat
  oemTableId : Nat
  oemRevision : Nat
  creatorId : Nat
  creatorRevision : Nat
  errorSourceCount : Nat
deriving DecidableEq, Repr

/-- Contents of the HEST table buffer: the header struct at offset 0 followed
by the concatenated error source descriptor bytes. -/
structure HestTableData where
  header : HestTableHeader
  payload : List Nat
deriving DecidableEq, Repr

/-- HEST_DXE_DRIVER_DATA: the aggregator's global state (mHestDriverData).
HestTable is NULL (none) until the first append builds the header. -/
structure HestDriverData where
  hestTable : Option HestTableData
  currentTableSize : Nat
deriving DecidableEq, Repr

/-- sizeof (EFI_ACPI_6_3_HARDWARE_ERROR_SOURCE_TABLE_HEADER) with the packed
ACPI layout: 36 bytes of EFI_ACPI_DESCRIPTION_HEADER plus 4 bytes of
ErrorSourceCount. -/
def hestHeaderSize : Nat := 40

/-- EFI_ACPI_6_3_HARDWARE_ERROR_SOURCE_TABLE_SIGNATURE, the four bytes
of the ASCII string for HEST read as a little-endian UINT32. -/
def hestSignature : Nat := 0x54534548

/-- EFI_ACPI_6_3_HARDWARE_ERROR_SOURCE_TABLE_REVISION. -/
def hestRevision : Nat := 1

/-- Truncation modulus of a UINT32 store. -/
def UINT32_MOD : Nat := 2 ^ 32

/-- Truncation modulus of a UINTN (64-bit) value, used where pointer
arithmetic is modelled. -/
def UINT64_MOD : Nat := 2 ^ 64

/-- mHestDriverData before the first protocol call: a zeroed global. -/
def initHestState : HestDriverData := { hestTable := none, currentTableSize := 0 }

/-- Little-endian byte serialization of a w-byte unsigned integer. -/
def natBytesLE : Nat → Nat → List Nat
  | 0, _ => []
  | w + 1, n => n % 256 :: natBytesLE w (n / 256)

/-- Byte image of the 40-byte packed HEST header, field by field in
declaration order. -/
def headerBytes (h : HestTableHeader) : List Nat :=
  natBytesLE 4 h.signature ++ natBytesLE 4 h.length ++
  [h.revision % 256] ++ [h.checksum % 256] ++
  (h.oemId.map fun b => b % 256) ++
  natBytesLE 8 h.oemTableId ++ natBytesLE 4 h.oemRevision ++
  natBytesLE 4 h.creatorId ++ natBytesLE 4 h.creatorRevision ++
  natBytesLE 4 h.errorSourceCount

/-- Byte image of the whole table buffer: serialized header then payload. -/
def tableBytes (t : HestTableData) : List Nat :=
  headerBytes t.header ++ (t.payload.map fun b => b % 256)

/-- Plain sum of a byte list. -/
def byteSum (l : List Nat) : Nat := l.foldl (· + ·) 0

/-- Modelled from the spec: BaseLib CalculateSum8 (not under src/) sums the
buffer bytes into a UINT8 accumulator, i.e. returns the byte sum mod 256. -/
def CalculateSum8 (l : List Nat) : Nat := byteSum l % 256

/-- Modelled from the spec: BaseLib CalculateCheckSum8 (not under src/)
returns the two's complement of CalculateSum8, the value that makes the
total byte sum zero mod 256 when it replaces a zero checksum byte. -/
def CalculateCheckSum8 (l : List Nat) : Nat := (256 - CalculateSum8 l) % 256

/-- The table contents produced by BuildHestHeader on successful allocation:
signature, revision, PCD-derived vendor fields and a zero ErrorSourceCount
are assigned; Header.Length and Header.Checksum are copied from the
uninitialized stack struct (HeaderGarbage). -/
def builtHestTable (pcds : Pcds) (garbage : HeaderGarbage) : HestTableData :=
  { header :=
      { signature := hestSignature
        length := garbage.length % UINT32_MOD
        revision := hestRevision
        checksum := garbage.checksum % 256
        oemId := pcds.oemId
        oemTableId := pcds.oemTableId
        oemRevision := pcds.oemRevision
        creatorId := pcds.creatorId
        creatorRevision := pcds.creatorRevision
        errorSourceCount := 0 }
    payload := [] }

/-- BuildHestHeader: allocates the 40-byte table via
ReallocateHestTableMemory (ReallocateReservedPool, not under src/; modelled
from the spec as an allocator whose success is the allocOk oracle), sets
CurrentTableSize, and copies in the stack header.  On allocation failure the
driver state is untouched and EFI_OUT_OF_RESOURCES is returned. -/
def BuildHestHeader (pcds : Pcds) (garbage : HeaderGarbage) (allocOk : Bool)
    (st : HestDriverData) : EfiStatus × HestDriverData :=
  if allocOk = false then
    (.outOfResources, st)
  else
    (.success,
      { hestTable := some (builtHestTable pcds garbage)
        currentTableSize := hestHeaderSize })

/-- The resize-and-copy tail of AppendErrorSourceDescriptor (HestDxe.c lines
180-217).  NewTableSize is a UINT32, so the UINTN sum truncates mod 2^32.
ReallocateHestTableMemory's result is assigned directly to
mHestDriverData.HestTable; on failure the pointer therefore becomes NULL
(hestTable := none) while CurrentTableSize keeps its old value.  On success
realloc preserves the old bytes, the descriptor bytes are copied into the
grown region, and the header Length and ErrorSourceCount (both UINT32) are
updated. -/
def appendGrowCopy (growAllocOk : Bool) (t : HestTableData) (cur : Nat)
    (descBytes : List Nat) (size count : Nat) : EfiStatus × HestDriverData :=
  let newTableSize := (cur + size) % UINT32_MOD
  if growAllocOk = false then
    (.outOfResources, { hestTable := none, currentTableSize := cur })
  else
    (.success,
      { hestTable := some
          { header :=
              { t.header with
                  length := newTableSize
                  errorSourceCount :=
                    (t.header.errorSourceCount + count) % UINT32_MOD }
            payload := t.payload ++ descBytes.take size }
        currentTableSize := newTableSize })

/-- AppendErrorSourceDescriptor (HestDxe.c lines 144-218).  A NULL descriptor
list (none) or a zero size is rejected with EFI_INVALID_PARAMETER before any
state is touched.  If no table exists yet, BuildHestHeader runs first and an
EFI_OUT_OF_RESOURCES from it is returned with the state untouched.  The call
then grows the buffer and copies the descriptors in. -/
def AppendErrorSourceDescriptor (pcds : Pcds) (garbage : HeaderGarbage)
    (buildAllocOk growAllocOk : Bool) (st : HestDriverData)
    (errorSourceDescriptorList : Option (List Nat))
    (errorSourceDescriptorListSize errorSourceDescriptorCount : Nat) :
    EfiStatus × HestDriverData :=
  if errorSourceDescriptorList = none ∨ errorSourceDescriptorListSize = 0 then
    (.invalidParameter, st)
  else
    match st.hestTable with
    | some t =>
        appendGrowCopy growAllocOk t st.currentTableSize
          (errorSourceDescriptorList.getD [])
          errorSourceDescriptorListSize errorSourceDescriptorCount
    | none =>
        if buildAllocOk = false then
          (.outOfResources, st)
        else
          appendGrowCopy growAllocOk (builtHestTable pcds garbage) hestHeaderSize
            (errorSourceDescriptorList.getD [])
            errorSourceDescriptorListSize errorSourceDescriptorCount

/-- InstallHestAcpiTable (HestDxe.c lines 234-288).  With no table it succeeds
without publishing.  Otherwise CalculateCheckSum8 runs over the buffer as it
currently is, for Header.Length bytes, and the result is stored into the
checksum field; then InstallAcpiTable (external collaborator, its outcome is
the installStatus oracle) is invoked.  On failure that status is returned;
on success the pool is freed (the model keeps the stale pointer value, as the
code does) and EFI_SUCCESS is returned. -/
def InstallHestAcpiTable (installStatus : EfiStatus) (st : HestDriverData) :
    EfiStatus × HestDriverData :=
  match st.hestTable with
  | none => (.success, st)
  | some t =>
      let ck := CalculateCheckSum8 ((tableBytes t).take t.header.length)
      let t' := { t with header := { t.header with checksum := ck } }
      if installStatus.isError = true then
        (installStatus, { st with hestTable := some t' })
      else
        (.success, { st with hestTable := some t' })

/-- Arguments and allocation outcomes of one AppendErrorSourceDescriptor
call, used to reason about call sequences. -/
structure AppendCall where
  garbage : HeaderGarbage
  buildOk : Bool
  growOk : Bool
  descList : Option (List Nat)
  size : Nat
  count : Nat
deriving DecidableEq, Repr

/-- Run a sequence of append calls against the aggregator state. -/
def runAppends (pcds : Pcds) : List AppendCall → HestDriverData → HestDriverData
  | [], st => st
  | c :: cs, st =>
      runAppends pcds cs
        (AppendErrorSourceDescriptor pcds c.garbage c.buildOk c.growOk st
          c.descList c.size c.count).2

/-- True when every call of the sequence returns EFI_SUCCESS. -/
def appendsAllSucceed (pcds : Pcds) : List AppendCall → HestDriverData → Bool
  | [], _ => true
  | c :: cs, st =>
      let r := AppendErrorSourceDescriptor pcds c.garbage c.buildOk c.growOk st
        c.descList c.size c.count
      if r.1 = .success then appendsAllSucceed pcds cs r.2 else false

/-- Sum of the descriptor byte-length arguments of a call sequence. -/
def sumSizes : List AppendCall → Nat
  | [] => 0
  | c :: cs => c.size + sumSizes cs

/-- Sum of the descriptor count arguments of a call sequence. -/
def sumCounts : List AppendCall → Nat
  | [] => 0
  | c :: cs => c.count + sumCounts cs

/-- The header/size invariant of the aggregator after appends totalling a
descriptor bytes and b descriptor records. -/
def TableInv (st : HestDriverData) (a b : Nat) : Prop :=
  ∃ t, st.hestTable = some t ∧
    st.currentTableSize = hestHeaderSize + a ∧
    t.header.length = hestHeaderSize + a ∧
    t.header.errorSourceCount = b

/-- One MM driver implementing MM_HEST_ERROR_SOURCE_DESC_PROTOCOL, described
by its observable behaviour on the two GetHestErrorSourceDescriptors calls
the collector makes.  With Buffer = NULL (probe) the driver returns
probeStatus and reports probeLength and probeCount; per the protocol contract
a conforming driver returns EFI_INVALID_PARAMETER there.  With a valid Buffer
(fill) it returns fillStatus and, on EFI_SUCCESS, writes fillData at the
cursor and reports its length.  A failing MmHandleProtocol lookup is modelled
as the producer reporting that failure status (observably identical: the
entry is skipped and the loop status variable holds that status). -/
structure Producer where
  probeStatus : EfiStatus
  probeLength : Nat
  probeCount : Nat
  fillStatus : EfiStatus
  fillData : List Nat
deriving DecidableEq, Repr

/-- HEST_ERROR_SOURCE_DESC_INFO_SIZE: OFFSET_OF (HEST_ERROR_SOURCE_DESC_INFO,
ErrSourceDescList) = two UINTN fields = 16 bytes on AARCH64. -/
def HEST_ERROR_SOURCE_DESC_INFO_SIZE : Nat := 16

/-- HEST_ERROR_SOURCE_DESC_INFO, the payload exchanged through the MM
communication buffer: the two UINTN totals followed by the inline descriptor
byte region (ErrSourceDescList). -/
structure MmPayload where
  errSourceDescCount : Nat
  errSourceDescSize : Nat
  errSourceDescList : List Nat
deriving DecidableEq, Repr

/-- Probe pass accumulation (HestErrorSourceStandaloneMm.c lines 183-207):
only producers answering the NULL-buffer query with EFI_INVALID_PARAMETER
contribute their length and count to the running totals; result is
(TotalSourceLength, TotalSourceCount). -/
def probeTotals : List Producer → Nat × Nat
  | [] => (0, 0)
  | p :: ps =>
      let t := probeTotals ps
      if p.probeStatus = .invalidParameter then
        (p.probeLength + t.1, p.probeCount + t.2)
      else t

/-- CopyMem of src into dst at byte offset off (the destination keeps its
bytes outside the written range). -/
def writeBytesAt (dst : List Nat) (off : Nat) (src : List Nat) : List Nat :=
  dst.take off ++ src ++ dst.drop (off + src.length)

/-- Fill pass (HestErrorSourceStandaloneMm.c lines 244-263): each producer is
called with the advancing cursor; on EFI_SUCCESS its bytes are copied there
and ErrorSourcePtr advances by the reported length; otherwise nothing is
written and the cursor stays.  The second component is the value of the
Status variable after the loop, which the handler returns. -/
def fillPass : List Producer → List Nat → Nat → EfiStatus → List Nat × EfiStatus
  | [], data, _, s => (data, s)
  | p :: ps, data, off, _ =>
      if p.fillStatus = .success then
        fillPass ps (writeBytesAt data off p.fillData)
          (off + p.fillData.length) p.fillStatus
      else
        fillPass ps data off p.fillStatus

/-- Concatenation of the bytes of the producers whose fill call succeeds, in
producer order. -/
def concatFills : List Producer → List Nat
  | [] => []
  | p :: ps =>
      (if p.fillStatus = .success then p.fillData else []) ++ concatFills ps

/-- HestErrorSourcesInfoMmiHandler (HestErrorSourceStandaloneMm.c lines
100-269).  CommBufferSize below the 16-byte info header is rejected with
EFI_INVALID_PARAMETER.  An empty producer enumeration returns EFI_NOT_FOUND
(MmLocateHandle finds no handles).  A failed handle-buffer allocation returns
EFI_OUT_OF_RESOURCES.  Otherwise the probe totals are written into the reply
fields; if the buffer cannot hold header plus totals, EFI_BUFFER_TOO_SMALL is
returned (totals remain written).  Otherwise the fill pass runs and the
handler returns the final value of its Status variable, i.e. the status of
the last producer query. -/
def HestErrorSourcesInfoMmiHandler (handleAllocOk : Bool)
    (producers : List Producer) (commBuffer : MmPayload)
    (commBufferSize : Nat) : EfiStatus × MmPayload :=
  if commBufferSize < HEST_ERROR_SOURCE_DESC_INFO_SIZE then
    (.invalidParameter, commBuffer)
  else if producers = [] then
    (.notFound, commBuffer)
  else if handleAllocOk = false then
    (.outOfResources, commBuffer)
  else
    let totals := probeTotals producers
    let reply := { commBuffer with
      errSourceDescCount := totals.2
      errSourceDescSize := totals.1 }
    if commBufferSize < totals.1 + HEST_ERROR_SOURCE_DESC_INFO_SIZE then
      (.bufferTooSmall, reply)
    else
      let fr := fillPass producers reply.errSourceDescList 0 .success
      (fr.2, { reply with errSourceDescList := fr.1 })

/-- MM_COMMUNICATE_HEADER_SIZE: OFFSET_OF (EFI_MM_COMMUNICATE_HEADER, Data)
= 16-byte GUID plus UINTN MessageLength = 24 bytes. -/
def MM_COMMUNICATE_HEADER_SIZE : Nat := 24

/-- Environment of one AppendMmErrorSources run: the boundary channel (a
function from payload size and payload to status and updated payload), the
outcomes of the two AllocatePool calls, the address of the second allocation
(pointer arithmetic on it decides the descriptor-list NULL check), and the
uninitialized contents of the two freshly allocated (non-zeroed) buffers. -/
structure ClientEnv where
  channel : Nat → MmPayload → EfiStatus × MmPayload
  alloc1Ok : Bool
  alloc2Ok : Bool
  base2 : Nat
  scratch1 : MmPayload
  scratch2 : MmPayload

/-- Result of AppendMmErrorSources: the returned status, the aggregator state
afterwards, and the arguments passed to AppendErrorSourceDescriptors when the
aggregator was reached (none when it was not). -/
structure ClientResult where
  status : EfiStatus
  agg : HestDriverData
  appended : Option (List Nat × Nat × Nat)
deriving DecidableEq, Repr

/-- Modelled from the spec: the boundary channel (EFI_MM_COMMUNICATION2
protocol plus the MM dispatch path, not under src/) is a synchronous duplex
call that strips the communicate header, hands the payload and its size to
the registered collector handler, mutates the payload in place and returns
the resulting status verbatim to the caller. -/
def mmChannel (handleAllocOk : Bool) (producers : List Producer) :
    Nat → MmPayload → EfiStatus × MmPayload :=
  fun payloadSize payload =>
    HestErrorSourcesInfoMmiHandler handleAllocOk producers payload payloadSize

/-- AppendMmErrorSources (HestErrorSourceDxe.c lines 99-239).  First call
with a minimal 16-byte payload; a failing status other than
EFI_BAD_BUFFER_SIZE is propagated.  Zero reported size or count succeeds
trivially.  A second, exactly sized call follows; any failure is propagated.
The reply's ErrSourceDescList member is an inline array whose address is
base + 24 + 16; if that address is NULL the client succeeds trivially.
Otherwise the descriptors are handed to the table aggregator and its status
is returned. -/
def AppendMmErrorSources (env : ClientEnv) (pcds : Pcds)
    (garbage : HeaderGarbage) (buildAllocOk growAllocOk : Bool)
    (agg : HestDriverData) : ClientResult :=
  if env.alloc1Ok = false then
    { status := .outOfResources, agg := agg, appended := none }
  else
    let r1 := env.channel HEST_ERROR_SOURCE_DESC_INFO_SIZE env.scratch1
    if r1.1.isError = true ∧ r1.1 ≠ .badBufferSize then
      { status := r1.1, agg := agg, appended := none }
    else if r1.2.errSourceDescSize = 0 ∨ r1.2.errSourceDescCount = 0 then
      { status := .success, agg := agg, appended := none }
    else if env.alloc2Ok = false then
      { status := .outOfResources, agg := agg, appended := none }
    else
      let r2 := env.channel
        (HEST_ERROR_SOURCE_DESC_INFO_SIZE + r1.2.errSourceDescSize) env.scratch2
      if r2.1.isError = true then
        { status := r2.1, agg := agg, appended := none }
      else if (env.base2 + MM_COMMUNICATE_HEADER_SIZE +
          HEST_ERROR_SOURCE_DESC_INFO_SIZE) % UINT64_MOD = 0 then
        { status := .success, agg := agg, appended := none }
      else
        let r3 := AppendErrorSourceDescriptor pcds garbage buildAllocOk
          growAllocOk agg (some r2.2.errSourceDescList)
          r2.2.errSourceDescSize r2.2.errSourceDescCount
        { status := r3.1, agg := r3.2
          appended := some (r2.2.errSourceDescList,
            r2.2.errSourceDescSize, r2.2.errSourceDescCount) }

/-- Platform constants instantiated to all-zero values for concrete runs. -/
def pcds0 : Pcds :=
  { oemId := List.replicate 6 0, oemTableId := 0, oemRevision := 0
    creatorId := 0, creatorRevision := 0 }

/-- All-zero indeterminate header bytes. -/
def garbage0 : HeaderGarbage := { length := 0, checksum := 0 }

/-- Indeterminate header bytes whose checksum byte happens to be 1. -/
def garbage1 : HeaderGarbage := { length := 0, checksum := 1 }

/-- Concrete client environment for exercising the guard-unreachability
theorem: a channel that reports one 8-byte descriptor record. -/
def c10env : ClientEnv :=
  { channel := fun _ _ =>
      (.success,
        { errSourceDescCount := 1, errSourceDescSize := 8
          errSourceDescList := List.replicate 8 0 })
    alloc1Ok := true, alloc2Ok := true, base2 := 4096
    scratch1 := { errSourceDescCount := 0, errSourceDescSize := 0
                  errSourceDescList := [] }
    scratch2 := { errSourceDescCount := 0, errSourceDescSize := 0
                  errSourceDescList := [] } }

theorem appendGrowCopy_success (gOk : Bool) (t : HestTableData) (cur : Nat)
    (bytes : List Nat) (size count : Nat) (st' : HestDriverData)
    (h : appendGrowCopy gOk t cur bytes size count = (.success, st'))
    (hsz : cur + size < UINT32_MOD)
    (hct : t.header.errorSourceCount + count < UINT32_MOD) :
    ∃ t', st'.hestTable = some t' ∧ st'.currentTableSize = cur + size ∧
      t'.header.length = cur + size ∧
      t'.header.errorSourceCount = t.header.errorSourceCount + count := by
  cases gOk with
  | false => simp [appendGrowCopy] at h
  | true =>
      simp [appendGrowCopy] at h
      subst h
      exact ⟨_, rfl, Nat.mod_eq_of_lt hsz, Nat.mod_eq_of_lt hsz, Nat.mod_eq_of_lt hct⟩

theorem append_step (pcds : Pcds) (garbage : HeaderGarbage)
    (bOk gOk : Bool) (st : HestDriverData) (l : Option (List Nat))
    (size count a b : Nat) (st' : HestDriverData)
    (hInv : TableInv st a b)
    (h : AppendErrorSourceDescriptor pcds garbage bOk gOk st l size count
      = (.success, st'))
    (hsz : hestHeaderSize + a + size < UINT32_MOD)
    (hct : b + count < UINT32_MOD) :
    TableInv st' (a + size) (b + count) := by
  obtain ⟨t, ht, hcur, hlen, hcnt⟩ := hInv
  by_cases hbad : l = none ∨ size = 0
  · simp [AppendErrorSourceDescriptor, hbad] at h
  · rw [AppendErrorSourceDescriptor.eq_def, if_neg hbad, ht] at h
    obtain ⟨t', h1, h2, h3, h4⟩ :=
      appendGrowCopy_success gOk t st.currentTableSize (l.getD []) size count st' h
        (by omega) (by omega)
    exact ⟨t', h1, by omega, by omega, by omega⟩

theorem append_step_first (pcds : Pcds) (garbage : HeaderGarbage)
    (bOk gOk : Bool) (l : Option (List Nat)) (size count : Nat)
    (st' : HestDriverData)
    (h : AppendErrorSourceDescriptor pcds garbage bOk gOk initHestState l size count
      = (.success, st'))
    (hsz : hestHeaderSize + size < UINT32_MOD)
    (hct : count < UINT32_MOD) :
    TableInv st' size count := by
  by_cases hbad : l = none ∨ size = 0
  · simp [AppendErrorSourceDescriptor, hbad] at h
  · cases bOk with
    | false => simp [AppendErrorSourceDescriptor, hbad, initHestState] at h
    | true =>
      rw [AppendErrorSourceDescriptor.eq_def, if_neg hbad] at h
      simp only [initHestState] at h
      rw [if_neg (by simp)] at h
      obtain ⟨t', h1, h2, h3, h4⟩ :=
        appendGrowCopy_success gOk (builtHestTable pcds garbage) hestHeaderSize
          (l.getD []) size count st' h (by omega)
          (by simp [builtHestTable]; omega)
      refine ⟨t', h1, h2, h3, ?_⟩
      rw [h4]
      simp [builtHestTable]

theorem runAppends_inv (pcds : Pcds) :
    ∀ (calls : List AppendCall) (st : HestDriverData) (a b : Nat),
    TableInv st a b →
    appendsAllSucceed pcds calls st = true →
    hestHeaderSize + a + sumSizes calls < UINT32_MOD →
    b + sumCounts calls < UINT32_MOD →
    TableInv (runAppends pcds calls st) (a + sumSizes calls) (b + sumCounts calls)
  | [], st, a, b, hInv, _, _, _ => by
      simpa [runAppends, sumSizes, sumCounts] using hInv
  | c :: cs, st, a, b, hInv, hall, hsz, hct => by
      simp only [appendsAllSucceed] at hall
      by_cases h1 : (AppendErrorSourceDescriptor pcds c.garbage c.buildOk c.growOk st
          c.descList c.size c.count).1 = .success
      · rw [if_pos h1] at hall
        have hstep : TableInv (AppendErrorSourceDescriptor pcds c.garbage c.buildOk
            c.growOk st c.descList c.size c.count).2 (a + c.size) (b + c.count) :=
          append_step pcds c.garbage c.buildOk c.growOk st c.descList c.size c.count
            a b _ hInv (Prod.ext_iff.mpr ⟨h1, rfl⟩)
            (by simp [sumSizes] at hsz; omega)
            (by simp [sumCounts] at hct; omega)
        have hrec := runAppends_inv pcds cs _ (a + c.size) (b + c.count) hstep hall
          (by simp [sumSizes] at hsz ⊢; omega)
          (by simp [sumCounts] at hct ⊢; omega)
        have e1 : a + sumSizes (c :: cs) = a + c.size + sumSizes cs := by
          simp [sumSizes]; omega
        have e2 : b + sumCounts (c :: cs) = b + c.count + sumCounts cs := by
          simp [sumCounts]; omega
        rw [e1, e2]
        exact hrec
      · rw [if_neg h1] at hall
        exact absurd hall (by simp)

/-- C1: for every sequence of successful AppendErrorSourceDescriptor calls
starting from the zeroed driver state, the resulting table header satisfies
ErrorSourceCount = sum of the descriptor count arguments and
Header.Length = header size + sum of the descriptor byte-length arguments
(CurrentTableSize agreeing with Length), provided the 32-bit header fields do
not overflow; the invariant is established by the first successful append and
preserved by each later one. -/
theorem hest_append_preserves_totals (pcds : Pcds) (calls : List AppendCall)
    (hne : calls ≠ [])
    (hall : appendsAllSucceed pcds calls initHestState = true)
    (hsz : hestHeaderSize + sumSizes calls < UINT32_MOD)
    (hct : sumCounts calls < UINT32_MOD) :
    ∃ t, (runAppends pcds calls initHestState).hestTable = some t ∧
      (runAppends pcds calls initHestState).currentTableSize
        = hestHeaderSize + sumSizes calls ∧
      t.header.length = hestHeaderSize + sumSizes calls ∧
      t.header.errorSourceCount = sumCounts calls := by
  match calls, hne with
  | c :: cs, _ =>
    simp only [appendsAllSucceed] at hall
    by_cases h1 : (AppendErrorSourceDescriptor pcds c.garbage c.buildOk c.growOk
        initHestState c.descList c.size c.count).1 = .success
    · rw [if_pos h1] at hall
      have hfirst : TableInv (AppendErrorSourceDescriptor pcds c.garbage c.buildOk
          c.growOk initHestState c.descList c.size c.count).2 c.size c.count :=
        append_step_first pcds c.garbage c.buildOk c.growOk c.descList c.size
          c.count _ (Prod.ext_iff.mpr ⟨h1, rfl⟩)
          (by simp [sumSizes] at hsz; omega)
          (by simp [sumCounts] at hct; omega)
      have hrec := runAppends_inv pcds cs _ c.size c.count hfirst hall
        (by simp [sumSizes] at hsz ⊢; omega)
        (by simp [sumCounts] at hct ⊢; omega)
      obtain ⟨t, h2, h3, h4, h5⟩ := hrec
      exact ⟨t, h2, by simp [sumSizes, runAppends] at h3 ⊢; omega,
        by simp [sumSizes] at h4 ⊢; omega, by simp [sumCounts] at h5 ⊢; omega⟩
    · rw [if_neg h1] at hall
      exact absurd hall (by simp)

theorem hest_append_preserves_totals_witness :
    ∃ t, (runAppends pcds0
        [{ garbage := garbage0, buildOk := true, growOk := true
           descList := some (List.replicate 8 1), size := 8, count := 1 },
         { garbage := garbage0, buildOk := true, growOk := true
           descList := some (List.replicate 16 2), size := 16, count := 2 }]
        initHestState).hestTable = some t ∧
      (runAppends pcds0
        [{ garbage := garbage0, buildOk := true, growOk := true
           descList := some (List.replicate 8 1), size := 8, count := 1 },
         { garbage := garbage0, buildOk := true, growOk := true
           descList := some (List.replicate 16 2), size := 16, count := 2 }]
        initHestState).currentTableSize = hestHeaderSize + sumSizes
          [{ garbage := garbage0, buildOk := true, growOk := true
             descList := some (List.replicate 8 1), size := 8, count := 1 },
           { garbage := garbage0, buildOk := true, growOk := true
             descList := some (List.replicate 16 2), size := 16, count := 2 }] ∧
      t.header.length = hestHeaderSize + sumSizes
          [{ garbage := garbage0, buildOk := true, growOk := true
             descList := some (List.replicate 8 1), size := 8, count := 1 },
           { garbage := garbage0, buildOk := true, growOk := true
             descList := some (List.replicate 16 2), size := 16, count := 2 }] ∧
      t.header.errorSourceCount = sumCounts
          [{ garbage := garbage0, buildOk := true, growOk := true
             descList := some (List.replicate 8 1), size := 8, count := 1 },
           { garbage := garbage0, buildOk := true, growOk := true
             descList := some (List.replicate 16 2), size := 16, count := 2 }] :=
  hest_append_preserves_totals pcds0
    [{ garbage := garbage0, buildOk := true, growOk := true
       descList := some (List.replicate 8 1), size := 8, count := 1 },
     { garbage := garbage0, buildOk := true, growOk := true
       descList := some (List.replicate 16 2), size := 16, count := 2 }]
    (by decide) (by decide) (by decide) (by decide)

/-- C9: appending with a NULL descriptor list or a zero byte length always
fails with EFI_INVALID_PARAMETER and returns with the aggregator state
bit-for-bit unchanged. -/
theorem hest_append_invalid_args_unchanged (pcds : Pcds)
    (garbage : HeaderGarbage) (buildAllocOk growAllocOk : Bool)
    (st : HestDriverData) (l : Option (List Nat)) (size count : Nat)
    (h : l = none ∨ size = 0) :
    AppendErrorSourceDescriptor pcds garbage buildAllocOk growAllocOk st
      l size count = (.invalidParameter, st) := by
  rw [AppendErrorSourceDescriptor.eq_def, if_pos h]

theorem hest_append_invalid_args_unchanged_witness :
    AppendErrorSourceDescriptor pcds0 garbage0 true true
        { hestTable := some (builtHestTable pcds0 garbage0)
          currentTableSize := hestHeaderSize }
        none 5 2
      = (.invalidParameter,
        { hestTable := some (builtHestTable pcds0 garbage0)
          currentTableSize := hestHeaderSize }) :=
  hest_append_invalid_args_unchanged pcds0 garbage0 true true
    { hestTable := some (builtHestTable pcds0 garbage0)
      currentTableSize := hestHeaderSize }
    none 5 2 (Or.inl rfl)

/-- C2 is refuted by the code: after one successful append, an append whose
buffer growth fails does return EFI_OUT_OF_RESOURCES, but it overwrites the
table pointer with the NULL returned by ReallocateHestTableMemory, so the
aggregator state is mutated (the table buffer pointer is lost together with
all previously appended content), contradicting the no-observable-mutation
claim. -/
theorem hest_append_grow_failure_nulls_table :
    (AppendErrorSourceDescriptor pcds0 garbage0 true true initHestState
        (some (List.replicate 8 1)) 8 1).1 = .success ∧
    (AppendErrorSourceDescriptor pcds0 garbage0 true true initHestState
        (some (List.replicate 8 1)) 8 1).2.hestTable ≠ none ∧
    (AppendErrorSourceDescriptor pcds0 garbage0 true false
        (AppendErrorSourceDescriptor pcds0 garbage0 true true initHestState
          (some (List.replicate 8 1)) 8 1).2
        (some (List.replicate 8 1)) 8 1).1 = .outOfResources ∧
    (AppendErrorSourceDescriptor pcds0 garbage0 true false
        (AppendErrorSourceDescriptor pcds0 garbage0 true true initHestState
          (some (List.replicate 8 1)) 8 1).2
        (some (List.replicate 8 1)) 8 1).2.hestTable = none := by
  decide

/-- C3 is refuted by the code: BuildHestHeader never initializes the checksum
field of the stack header it copies into the table, and InstallHestAcpiTable
computes CalculateCheckSum8 over the buffer with that indeterminate byte in
place rather than treating it as zero.  With the indeterminate checksum byte
equal to 1, a table built from one 8-byte all-zero descriptor finalizes and
is published (status EFI_SUCCESS) with a stored checksum whose whole-buffer
byte sum is 255 mod 256, not 0. -/
theorem hest_install_checksum_nonzero_sum :
    (InstallHestAcpiTable .success
        (AppendErrorSourceDescriptor pcds0 garbage1 true true initHestState
          (some (List.replicate 8 0)) 8 1).2).1 = .success ∧
    ((InstallHestAcpiTable .success
        (AppendErrorSourceDescriptor pcds0 garbage1 true true initHestState
          (some (List.replicate 8 0)) 8 1).2).2.hestTable.map
      fun t => byteSum ((tableBytes t).take t.header.length) % 256) = some 255 := by
  decide

/-- Companion fact: on the same scenario, when the indeterminate checksum
byte happens to be zero the finalized buffer does sum to zero mod 256 —
the correctness of the published checksum depends exactly on the
uninitialized byte. -/
theorem hest_install_checksum_zero_when_byte_zero :
    ((InstallHestAcpiTable .success
        (AppendErrorSourceDescriptor pcds0 garbage0 true true initHestState
          (some (List.replicate 8 0)) 8 1).2).2.hestTable.map
      fun t => byteSum ((tableBytes t).take t.header.length) % 256) = some 0 := by
  decide

theorem probeTotals_spec (ps : List Producer) :
    (probeTotals ps).1 =
      ((ps.filter fun p => decide (p.probeStatus = .invalidParameter)).map
        Producer.probeLength).sum ∧
    (probeTotals ps).2 =
      ((ps.filter fun p => decide (p.probeStatus = .invalidParameter)).map
        Producer.probeCount).sum := by
  induction ps with
  | nil => simp [probeTotals]
  | cons p ps ih =>
      by_cases hp : p.probeStatus = .invalidParameter
      · simp [probeTotals, hp, List.filter_cons, ih.1, ih.2]
      · simp [probeTotals, hp, List.filter_cons, ih.1, ih.2]

/-- C6: for any nonempty producer set and a valid invocation, the totals the
collector writes into the reply's count and size fields are exactly the sums
of the counts and byte lengths reported by the producers that answer the
NULL-buffer probe with EFI_INVALID_PARAMETER; producers answering anything
else contribute nothing. -/
theorem hest_probe_totals_sum (producers : List Producer)
    (commBuffer : MmPayload) (commBufferSize : Nat)
    (hcap : HEST_ERROR_SOURCE_DESC_INFO_SIZE ≤ commBufferSize)
    (hne : producers ≠ []) :
    (HestErrorSourcesInfoMmiHandler true producers commBuffer
        commBufferSize).2.errSourceDescCount =
      ((producers.filter fun p =>
          decide (p.probeStatus = .invalidParameter)).map
        Producer.probeCount).sum ∧
    (HestErrorSourcesInfoMmiHandler true producers commBuffer
        commBufferSize).2.errSourceDescSize =
      ((producers.filter fun p =>
          decide (p.probeStatus = .invalidParameter)).map
        Producer.probeLength).sum := by
  have h1 : ¬ commBufferSize < HEST_ERROR_SOURCE_DESC_INFO_SIZE :=
    Nat.not_lt.mpr hcap
  by_cases hbts :
      commBufferSize < (probeTotals producers).1 + HEST_ERROR_SOURCE_DESC_INFO_SIZE
  · have hh : (HestErrorSourcesInfoMmiHandler true producers commBuffer
        commBufferSize).2
        = { commBuffer with
            errSourceDescCount := (probeTotals producers).2,
            errSourceDescSize := (probeTotals producers).1 } := by
      simp [HestErrorSourcesInfoMmiHandler, h1, hne, hbts]
    rw [hh]
    exact ⟨(probeTotals_spec producers).2, (probeTotals_spec producers).1⟩
  · have hh : (HestErrorSourcesInfoMmiHandler true producers commBuffer
        commBufferSize).2
        = { errSourceDescCount := (probeTotals producers).2,
            errSourceDescSize := (probeTotals producers).1,
            errSourceDescList :=
              (fillPass producers commBuffer.errSourceDescList 0 .success).1 } := by
      simp [HestErrorSourcesInfoMmiHandler, h1, hne, hbts]
    rw [hh]
    exact ⟨(probeTotals_spec producers).2, (probeTotals_spec producers).1⟩

theorem hest_probe_totals_sum_witness :
    (HestErrorSourcesInfoMmiHandler true
        [{ probeStatus := .invalidParameter, probeLength := 16, probeCount := 1
           fillStatus := .success, fillData := List.replicate 16 1 },
         { probeStatus := .invalidParameter, probeLength := 32, probeCount := 2
           fillStatus := .success, fillData := List.replicate 32 2 },
         { probeStatus := .invalidParameter, probeLength := 0, probeCount := 0
           fillStatus := .success, fillData := [] }]
        { errSourceDescCount := 0, errSourceDescSize := 0
          errSourceDescList := List.replicate 48 0 } 64).2.errSourceDescCount = 3 ∧
    (HestErrorSourcesInfoMmiHandler true
        [{ probeStatus := .invalidParameter, probeLength := 16, probeCount := 1
           fillStatus := .success, fillData := List.replicate 16 1 },
         { probeStatus := .invalidParameter, probeLength := 32, probeCount := 2
           fillStatus := .success, fillData := List.replicate 32 2 },
         { probeStatus := .invalidParameter, probeLength := 0, probeCount := 0
           fillStatus := .success, fillData := [] }]
        { errSourceDescCount := 0, errSourceDescSize := 0
          errSourceDescList := List.replicate 48 0 } 64).2.errSourceDescSize = 48 := by
  have h := hest_probe_totals_sum
    [{ probeStatus := .invalidParameter, probeLength := 16, probeCount := 1
       fillStatus := .success, fillData := List.replicate 16 1 },
     { probeStatus := .invalidParameter, probeLength := 32, probeCount := 2
       fillStatus := .success, fillData := List.replicate 32 2 },
     { probeStatus := .invalidParameter, probeLength := 0, probeCount := 0
       fillStatus := .success, fillData := [] }]
    { errSourceDescCount := 0, errSourceDescSize := 0
      errSourceDescList := List.replicate 48 0 } 64
    (by decide) (by decide)
  exact ⟨h.1.trans (by decide), h.2.trans (by decide)⟩

theorem writeBytesAt_eq (dst : List Nat) (off : Nat) (src : List Nat) :
    writeBytesAt dst off src
      = (dst.take off ++ src) ++ dst.drop (off + src.length) := by
  simp [writeBytesAt, List.append_assoc]

theorem writeBytesAt_length (dst : List Nat) (off : Nat) (src : List Nat)
    (h : off + src.length ≤ dst.length) :
    (writeBytesAt dst off src).length = dst.length := by
  simp [writeBytesAt, List.length_append, List.length_take, List.length_drop]
  omega

theorem take_writeBytesAt (dst : List Nat) (off : Nat) (src : List Nat)
    (h : off + src.length ≤ dst.length) :
    (writeBytesAt dst off src).take (off + src.length) = dst.take off ++ src := by
  rw [writeBytesAt_eq]
  refine List.take_left' ?_
  simp [List.length_append, List.length_take]
  omega

theorem drop_writeBytesAt (dst : List Nat) (off : Nat) (src : List Nat) (m : Nat)
    (h : off + src.length ≤ dst.length) :
    (writeBytesAt dst off src).drop (off + src.length + m)
      = dst.drop (off + src.length + m) := by
  rw [writeBytesAt_eq]
  have hl : (dst.take off ++ src).length = off + src.length := by
    simp [List.length_append, List.length_take]
    omega
  rw [show off + src.length + m = (dst.take off ++ src).length + m from by rw [hl]]
  rw [← List.drop_drop, List.drop_left, List.drop_drop, hl]

theorem fillPass_writes : ∀ (ps : List Producer) (data : List Nat) (off : Nat)
    (s : EfiStatus),
    off + (concatFills ps).length ≤ data.length →
    (fillPass ps data off s).1
      = data.take off ++ concatFills ps
        ++ data.drop (off + (concatFills ps).length)
  | [], data, off, s, h => by
      simp [fillPass, concatFills]
  | p :: ps, data, off, s, h => by
      by_cases hp : p.fillStatus = .success
      · have hcf : concatFills (p :: ps) = p.fillData ++ concatFills ps := by
          simp [concatFills, hp]
        rw [hcf] at h ⊢
        rw [List.length_append] at h
        have hok : off + p.fillData.length ≤ data.length := by omega
        have hlen1 : (writeBytesAt data off p.fillData).length = data.length :=
          writeBytesAt_length data off p.fillData hok
        simp only [fillPass]
        rw [if_pos hp]
        rw [fillPass_writes ps _ _ _ (by rw [hlen1]; omega)]
        rw [take_writeBytesAt data off p.fillData hok]
        rw [drop_writeBytesAt data off p.fillData (concatFills ps).length hok]
        simp [List.append_assoc, List.length_append, Nat.add_assoc]
      · have hcf : concatFills (p :: ps) = concatFills ps := by
          simp [concatFills, hp]
        rw [hcf] at h ⊢
        simp only [fillPass]
        rw [if_neg hp]
        exact fillPass_writes ps data off p.fillStatus h

theorem fillPass_all_success : ∀ (ps : List Producer) (data : List Nat)
    (off : Nat), (∀ p ∈ ps, p.fillStatus = .success) →
    (fillPass ps data off .success).2 = .success
  | [], _, _, _ => rfl
  | p :: ps, data, off, h => by
      have hp : p.fillStatus = .success := h p (by simp)
      simp only [fillPass]
      rw [if_pos hp, hp]
      exact fillPass_all_success ps _ _ (fun q hq => h q (by simp [hq]))

/-- C7: in the fill pass, each successfully queried producer's bytes are
placed at a write cursor that starts at the beginning of the reply's
descriptor region and advances by each successful producer's length: the
region after the handler equals the in-order concatenation of the successful
producers' bytes, the rest of the region untouched. -/
theorem hest_fill_pass_placement (producers : List Producer)
    (commBuffer : MmPayload) (commBufferSize : Nat)
    (hcap : HEST_ERROR_SOURCE_DESC_INFO_SIZE ≤ commBufferSize)
    (hne : producers ≠ [])
    (hfit : (probeTotals producers).1 + HEST_ERROR_SOURCE_DESC_INFO_SIZE
      ≤ commBufferSize)
    (hroom : (concatFills producers).length
      ≤ commBuffer.errSourceDescList.length) :
    (HestErrorSourcesInfoMmiHandler true producers commBuffer
        commBufferSize).2.errSourceDescList
      = concatFills producers ++
        commBuffer.errSourceDescList.drop (concatFills producers).length := by
  have h1 : ¬ commBufferSize < HEST_ERROR_SOURCE_DESC_INFO_SIZE :=
    Nat.not_lt.mpr hcap
  have hbts : ¬ commBufferSize
      < (probeTotals producers).1 + HEST_ERROR_SOURCE_DESC_INFO_SIZE :=
    Nat.not_lt.mpr hfit
  have hh : (HestErrorSourcesInfoMmiHandler true producers commBuffer
      commBufferSize).2.errSourceDescList
      = (fillPass producers commBuffer.errSourceDescList 0 .success).1 := by
    simp [HestErrorSourcesInfoMmiHandler, h1, hne, hbts]
  rw [hh, fillPass_writes producers _ 0 _ (by omega)]
  simp

theorem hest_fill_pass_placement_witness :
    (HestErrorSourcesInfoMmiHandler true
        [{ probeStatus := .invalidParameter, probeLength := 16, probeCount := 1
           fillStatus := .success, fillData := List.replicate 16 1 },
         { probeStatus := .invalidParameter, probeLength := 32, probeCount := 2
           fillStatus := .success, fillData := List.replicate 32 2 },
         { probeStatus := .invalidParameter, probeLength := 0, probeCount := 0
           fillStatus := .success, fillData := [] }]
        { errSourceDescCount := 0, errSourceDescSize := 0
          errSourceDescList := List.replicate 48 0 } 64).2.errSourceDescList
      = List.replicate 16 1 ++ List.replicate 32 2 :=
  (hest_fill_pass_placement
    [{ probeStatus := .invalidParameter, probeLength := 16, probeCount := 1
       fillStatus := .success, fillData := List.replicate 16 1 },
     { probeStatus := .invalidParameter, probeLength := 32, probeCount := 2
       fillStatus := .success, fillData := List.replicate 32 2 },
     { probeStatus := .invalidParameter, probeLength := 0, probeCount := 0
       fillStatus := .success, fillData := [] }]
    { errSourceDescCount := 0, errSourceDescSize := 0
      errSourceDescList := List.replicate 48 0 } 64
    (by decide) (by decide) (by decide) (by decide)).trans (by decide)

/-- C8: under a valid invocation with conforming producers, the collector
returns EFI_BUFFER_TOO_SMALL exactly when the supplied buffer capacity is
strictly below the 16-byte info header plus the probe-pass total byte length,
and whenever the capacity suffices the call returns EFI_SUCCESS. -/
theorem hest_buffer_too_small_iff_capacity (producers : List Producer)
    (commBuffer : MmPayload) (commBufferSize : Nat)
    (hcap : HEST_ERROR_SOURCE_DESC_INFO_SIZE ≤ commBufferSize)
    (hne : producers ≠ [])
    (hwb : ∀ p ∈ producers, p.fillStatus = EfiStatus.success) :
    ((HestErrorSourcesInfoMmiHandler true producers commBuffer
        commBufferSize).1 = .bufferTooSmall
      ↔ commBufferSize
          < (probeTotals producers).1 + HEST_ERROR_SOURCE_DESC_INFO_SIZE)
    ∧ ((probeTotals producers).1 + HEST_ERROR_SOURCE_DESC_INFO_SIZE
          ≤ commBufferSize →
        (HestErrorSourcesInfoMmiHandler true producers commBuffer
            commBufferSize).1 = .success) := by
  have h1 : ¬ commBufferSize < HEST_ERROR_SOURCE_DESC_INFO_SIZE :=
    Nat.not_lt.mpr hcap
  by_cases hbts : commBufferSize
      < (probeTotals producers).1 + HEST_ERROR_SOURCE_DESC_INFO_SIZE
  · have hs : (HestErrorSourcesInfoMmiHandler true producers commBuffer
        commBufferSize).1 = .bufferTooSmall := by
      simp [HestErrorSourcesInfoMmiHandler, h1, hne, hbts]
    exact ⟨by simp [hs, hbts], fun hge => absurd hge (by omega)⟩
  · have hs : (HestErrorSourcesInfoMmiHandler true producers commBuffer
        commBufferSize).1 = .success := by
      have hfp : (HestErrorSourcesInfoMmiHandler true producers commBuffer
          commBufferSize).1
          = (fillPass producers commBuffer.errSourceDescList 0 .success).2 := by
        simp [HestErrorSourcesInfoMmiHandler, h1, hne, hbts]
      rw [hfp]
      exact fillPass_all_success producers _ 0 hwb
    exact ⟨by simp [hs, hbts], fun _ => hs⟩

theorem hest_buffer_too_small_iff_capacity_witness :
    (HestErrorSourcesInfoMmiHandler true
        [{ probeStatus := .invalidParameter, probeLength := 16, probeCount := 1
           fillStatus := .success, fillData := List.replicate 16 1 },
         { probeStatus := .invalidParameter, probeLength := 32, probeCount := 1
           fillStatus := .success, fillData := List.replicate 32 2 },
         { probeStatus := .invalidParameter, probeLength := 48, probeCount := 1
           fillStatus := .success, fillData := List.replicate 48 3 }]
        { errSourceDescCount := 0, errSourceDescSize := 0
          errSourceDescList := List.replicate 96 0 } 111).1 = .bufferTooSmall ∧
    (HestErrorSourcesInfoMmiHandler true
        [{ probeStatus := .invalidParameter, probeLength := 16, probeCount := 1
           fillStatus := .success, fillData := List.replicate 16 1 },
         { probeStatus := .invalidParameter, probeLength := 32, probeCount := 1
           fillStatus := .success, fillData := List.replicate 32 2 },
         { probeStatus := .invalidParameter, probeLength := 48, probeCount := 1
           fillStatus := .success, fillData := List.replicate 48 3 }]
        { errSourceDescCount := 0, errSourceDescSize := 0
          errSourceDescList := List.replicate 96 0 } 112).1 = .success :=
  ⟨(hest_buffer_too_small_iff_capacity
      [{ probeStatus := .invalidParameter, probeLength := 16, probeCount := 1
         fillStatus := .success, fillData := List.replicate 16 1 },
       { probeStatus := .invalidParameter, probeLength := 32, probeCount := 1
         fillStatus := .success, fillData := List.replicate 32 2 },
       { probeStatus := .invalidParameter, probeLength := 48, probeCount := 1
         fillStatus := .success, fillData := List.replicate 48 3 }]
      { errSourceDescCount := 0, errSourceDescSize := 0
        errSourceDescList := List.replicate 96 0 } 111
      (by decide) (by decide) (by decide)).1.mpr (by decide),
   (hest_buffer_too_small_iff_capacity
      [{ probeStatus := .invalidParameter, probeLength := 16, probeCount := 1
         fillStatus := .success, fillData := List.replicate 16 1 },
       { probeStatus := .invalidParameter, probeLength := 32, probeCount := 1
         fillStatus := .success, fillData := List.replicate 32 2 },
       { probeStatus := .invalidParameter, probeLength := 48, probeCount := 1
         fillStatus := .success, fillData := List.replicate 48 3 }]
      { errSourceDescCount := 0, errSourceDescSize := 0
        errSourceDescList := List.replicate 96 0 } 112
      (by decide) (by decide) (by decide)).2 (by decide)⟩

/-- C4 is refuted by the code: the handler returns the final value of its
Status loop variable, i.e. the status of the last producer query of the fill
pass.  With two probe-conforming producers where only the second (last) one
fails its fill call, the reply still carries the first producer's 16 bytes at
offset 0 and the full declared totals (count 2, size 32), yet the collector's
invocation as a whole returns that producer's failure status instead of
EFI_SUCCESS. -/
theorem hest_collector_last_fill_failure_fails_call :
    (HestErrorSourcesInfoMmiHandler true
        [{ probeStatus := .invalidParameter, probeLength := 16, probeCount := 1
           fillStatus := .success, fillData := List.replicate 16 7 },
         { probeStatus := .invalidParameter, probeLength := 16, probeCount := 1
           fillStatus := .aborted, fillData := [] }]
        { errSourceDescCount := 0, errSourceDescSize := 0
          errSourceDescList := List.replicate 32 0 } 48).1 = .aborted ∧
    (HestErrorSourcesInfoMmiHandler true
        [{ probeStatus := .invalidParameter, probeLength := 16, probeCount := 1
           fillStatus := .success, fillData := List.replicate 16 7 },
         { probeStatus := .invalidParameter, probeLength := 16, probeCount := 1
           fillStatus := .aborted, fillData := [] }]
        { errSourceDescCount := 0, errSourceDescSize := 0
          errSourceDescList := List.replicate 32 0 } 48).1.isError = true ∧
    (HestErrorSourcesInfoMmiHandler true
        [{ probeStatus := .invalidParameter, probeLength := 16, probeCount := 1
           fillStatus := .success, fillData := List.replicate 16 7 },
         { probeStatus := .invalidParameter, probeLength := 16, probeCount := 1
           fillStatus := .aborted, fillData := [] }]
        { errSourceDescCount := 0, errSourceDescSize := 0
          errSourceDescList := List.replicate 32 0 } 48).2.errSourceDescCount = 2 ∧
    (HestErrorSourcesInfoMmiHandler true
        [{ probeStatus := .invalidParameter, probeLength := 16, probeCount := 1
           fillStatus := .success, fillData := List.replicate 16 7 },
         { probeStatus := .invalidParameter, probeLength := 16, probeCount := 1
           fillStatus := .aborted, fillData := [] }]
        { errSourceDescCount := 0, errSourceDescSize := 0
          errSourceDescList := List.replicate 32 0 } 48).2.errSourceDescSize = 32 ∧
    ((HestErrorSourcesInfoMmiHandler true
        [{ probeStatus := .invalidParameter, probeLength := 16, probeCount := 1
           fillStatus := .success, fillData := List.replicate 16 7 },
         { probeStatus := .invalidParameter, probeLength := 16, probeCount := 1
           fillStatus := .aborted, fillData := [] }]
        { errSourceDescCount := 0, errSourceDescSize := 0
          errSourceDescList := List.replicate 32 0 } 48).2.errSourceDescList).take 16
      = List.replicate 16 7 := by
  decide

/-- C5 is refuted by the code pairing: with one conforming producer declaring
16 bytes, the collector answers the minimal probe-sized first call with
EFI_BUFFER_TOO_SMALL (its own doc comment promises EFI_BAD_BUFFER_SIZE for an
inadequate CommBufferSize), while AppendMmErrorSources excuses only
EFI_BAD_BUFFER_SIZE, so the probe-pass BufferTooSmall is propagated to the
caller instead of triggering the exactly-sized retry: the whole client call
returns EFI_BUFFER_TOO_SMALL and never reaches the aggregator. -/
theorem hest_client_propagates_buffer_too_small :
    AppendMmErrorSources
        { channel := mmChannel true
            [{ probeStatus := .invalidParameter, probeLength := 16
               probeCount := 1, fillStatus := .success
               fillData := List.replicate 16 0 }]
          alloc1Ok := true, alloc2Ok := true, base2 := 4096
          scratch1 := { errSourceDescCount := 0, errSourceDescSize := 0
                        errSourceDescList := [] }
          scratch2 := { errSourceDescCount := 0, errSourceDescSize := 0
                        errSourceDescList := [] } }
        pcds0 garbage0 true true initHestState
      = { status := .bufferTooSmall, agg := initHestState, appended := none } := by
  decide

/-- C10: the descriptor-list region of the reply is an inline array at fixed
offset 40 (24-byte communicate header plus the two UINTN totals) inside the
second allocation, so as long as that allocation is a real object in the
address space its address is never NULL and the defensive absent-list branch
of AppendMmErrorSources is not taken: every successful second cross-domain
call (after a first call reporting nonzero count and size) reaches the
aggregator append with the reply's descriptor bytes, size and count. -/
theorem hest_client_desc_list_guard_unreachable (env : ClientEnv) (pcds : Pcds)
    (garbage : HeaderGarbage) (buildAllocOk growAllocOk : Bool)
    (agg : HestDriverData) (r1 r2 : EfiStatus × MmPayload)
    (hr1 : env.channel HEST_ERROR_SOURCE_DESC_INFO_SIZE env.scratch1 = r1)
    (hr2 : env.channel
        (HEST_ERROR_SOURCE_DESC_INFO_SIZE + r1.2.errSourceDescSize)
        env.scratch2 = r2)
    (h1 : env.alloc1Ok = true)
    (hst1 : r1.1.isError = false ∨ r1.1 = .badBufferSize)
    (hsz : r1.2.errSourceDescSize ≠ 0)
    (hct : r1.2.errSourceDescCount ≠ 0)
    (h2 : env.alloc2Ok = true)
    (hst2 : r2.1 = .success)
    (hfits : env.base2 + MM_COMMUNICATE_HEADER_SIZE
        + HEST_ERROR_SOURCE_DESC_INFO_SIZE + r1.2.errSourceDescSize
        ≤ UINT64_MOD) :
    (AppendMmErrorSources env pcds garbage buildAllocOk growAllocOk agg).appended
      = some (r2.2.errSourceDescList, r2.2.errSourceDescSize,
          r2.2.errSourceDescCount) := by
  have hc1 : ¬ (r1.1.isError = true ∧ r1.1 ≠ .badBufferSize) := by
    rcases hst1 with h | h
    · simp [h]
    · simp [h]
  have hc2 : ¬ (r1.2.errSourceDescSize = 0 ∨ r1.2.errSourceDescCount = 0) := by
    simp [hsz, hct]
  have hc3 : ¬ (r2.1.isError = true) := by
    simp [hst2, EfiStatus.isError]
  have hbig : MM_COMMUNICATE_HEADER_SIZE = 24 ∧
      HEST_ERROR_SOURCE_DESC_INFO_SIZE = 16 ∧
      UINT64_MOD = 18446744073709551616 := by
    refine ⟨rfl, rfl, ?_⟩
    norm_num [UINT64_MOD]
  have hc4 : ¬ ((env.base2 + MM_COMMUNICATE_HEADER_SIZE
      + HEST_ERROR_SOURCE_DESC_INFO_SIZE) % UINT64_MOD = 0) := by
    obtain ⟨e1, e2, e3⟩ := hbig
    rw [e1, e2, e3] at hfits ⊢
    rw [Nat.mod_eq_of_lt (by omega)]
    omega
  rw [AppendMmErrorSources.eq_def]
  rw [if_neg (by simp [h1])]
  simp only [hr1]
  rw [if_neg hc1, if_neg hc2, if_neg (by simp [h2])]
  simp only [hr2]
  rw [if_neg hc3, if_neg hc4]

theorem hest_client_desc_list_guard_unreachable_witness :
    (AppendMmErrorSources c10env pcds0 garbage0 true true
        initHestState).appended = some (List.replicate 8 0, 8, 1) :=
  hest_client_desc_list_guard_unreachable c10env pcds0 garbage0 true true
    initHestState
    (.success,
      { errSourceDescCount := 1, errSourceDescSize := 8
        errSourceDescList := List.replicate 8 0 })
    (.success,
      { errSourceDescCount := 1, errSourceDescSize := 8
        errSourceDescList := List.replicate 8 0 })
    rfl rfl rfl (Or.inl rfl) (by decide) (by decide) rfl rfl (by decide)
